import Mathlib

/-!
Shallow embedding of the testnet12 explorer core (src/main.rs): the
tip-chain walker (`get_blocks`), the mempool snapshotter (`get_mempool`),
the balance reconciler (`get_address_balance`) and the connectivity
tracker (`get_peer_info`), together with theorems settling the spec
claims about them.

Modelling conventions:
- block / transaction hashes (`kaspa_hashes::Hash`) are `Nat`, with `0`
  playing the role of `Hash::default()` (the zero hash);
- `u64` arithmetic that can overflow (running balance sums) is `Nat`
  with an explicit `% 2^64` at each addition, matching release-mode
  wrapping;
- fallible RPC calls return `Option` (`none` = the call failed); the
  UTXO enumeration, which additionally runs under a 20 s `timeout`, has
  a dedicated three-way outcome type;
- the retried mempool-entries call is a function of the attempt index,
  so that each of the three attempts can succeed or fail independently;
- `std::collections::hash_map::DefaultHasher` folded over the sorted id
  strings is abstracted as an explicit parameter
  `hashIds : List String → Nat`: every theorem below holds for every
  such function, in particular for the real SipHash;
- `Instant` timestamps are `Nat` seconds; `ts.elapsed() <= 15s` becomes
  `now - ts ≤ 15` (truncated subtraction, as `elapsed` is nonnegative);
- `f64` fields (difficulty) never flow into any claim; they are carried
  as `Int` payloads so the record shapes match the source.
-/

namespace Explorer

/-- `kaspa_hashes::Hash`; `0` is `Hash::default()`. -/
abbrev Hash := Nat

/-- Error component of an axum handler result (`StatusCode`). -/
inductive StatusCode where
  | serviceUnavailable
  | internalServerError
  | badRequest
deriving DecidableEq, Repr

/-- `GetInfoResponse` fields the explorer reads. -/
structure RpcInfo where
  is_utxo_indexed : Bool
  mempool_size : Nat
deriving DecidableEq, Repr, Inhabited

/-- `GetBlockDagInfoResponse` fields the explorer reads. -/
structure DagInfo where
  sink : Hash
  block_count : Nat
deriving DecidableEq, Repr, Inhabited

/-- Verbose data of an RPC transaction (`RpcTransactionVerboseData`). -/
structure TxVerboseData where
  transaction_id : Hash
  hash : Hash
deriving DecidableEq, Repr, Inhabited

/-- An RPC transaction output: only `value` is read. -/
structure RpcTxOutput where
  value : Nat
deriving DecidableEq, Repr, Inhabited

/-- An RPC transaction as read by the mempool handler: input/output
lists (only lengths and output values are used) and optional verbose
data. Inputs carry no payload the code reads, so they are `Unit`s. -/
structure RpcTransaction where
  inputs : List Unit
  outputs : List RpcTxOutput
  verbose_data : Option TxVerboseData
deriving DecidableEq, Repr, Inhabited

/-- `RpcMempoolEntry`: the handler only touches `.transaction`. -/
structure RpcMempoolEntry where
  transaction : RpcTransaction
deriving DecidableEq, Repr, Inhabited

/-- Block header fields read by the walker. `parents_by_level` is the
per-level parent list; the walker reads level 0 only. -/
structure RpcHeader where
  hash : Hash
  daa_score : Nat
  parents_by_level : List (List Hash)
  timestamp : Nat
  bits : Nat
deriving DecidableEq, Repr, Inhabited

/-- Verbose block data read by the walker. `difficulty` is an `f64` in
the source; its numeric payload is carried as `Int` (no claim reads it). -/
structure BlockVerboseData where
  transaction_ids : List Hash
  difficulty : Int
  selected_parent_hash : Hash
deriving DecidableEq, Repr, Inhabited

/-- An RPC block as read by the walker. -/
structure RpcBlock where
  header : RpcHeader
  transactions : List RpcTransaction
  verbose_data : Option BlockVerboseData
deriving DecidableEq, Repr, Inhabited

/-- A UTXO entry as read by the balance reconciler: outpoint
transaction id / index and the `utxo_entry.amount`. -/
structure RpcUtxo where
  outpoint_transaction_id : Hash
  outpoint_index : Nat
  amount : Nat
deriving DecidableEq, Repr, Inhabited

/-- Three-way outcome of `timeout(20s, get_utxos_by_addresses(..))`:
the inner call completed with a result, completed with an error, or the
budget expired first. -/
inductive UtxoOutcome where
  | ok (utxos : List RpcUtxo)
  | err
  | timeout
deriving DecidableEq, Repr, Inhabited

/-- A parsed address (`kaspa_addresses::Address`); its wire content is
irrelevant to the core, so it is its text. -/
abbrev ParsedAddress := String

/-- The node RPC connection (`GrpcClient`), embedded as one outcome per
operation. `get_mempool_entries` is indexed by the retry attempt number
so each of the three attempts can fail or succeed independently. -/
structure Client where
  get_info_result : Option RpcInfo
  get_block_dag_info : Option DagInfo
  get_block : Hash → Option RpcBlock
  get_mempool_entries : Nat → Option (List RpcMempoolEntry)
  get_balance_by_address : ParsedAddress → Option Nat
  get_utxos_by_addresses : ParsedAddress → UtxoOutcome

/-! ### Shared view records (the `Serialize` structs) -/

/-- `BlockInfo`: one displayed block. -/
structure BlockInfo where
  hash : String
  level : Nat
  parents : String
  tx_count : Nat
  timestamp : Nat
  difficulty : Int
deriving DecidableEq, Repr, Inhabited

/-- `BlocksResponse`. -/
structure BlocksResponse where
  total_count : Nat
  blocks : List BlockInfo
deriving DecidableEq, Repr, Inhabited

/-- `TransactionInfo`: one displayed mempool transaction. -/
structure TransactionInfo where
  id : String
  input_count : Nat
  output_count : Nat
  amount : Nat
deriving DecidableEq, Repr, Inhabited

/-- `MempoolInfo`: the mempool snapshot returned to the dashboard. -/
structure MempoolInfo where
  size : Nat
  transactions : List TransactionInfo
deriving DecidableEq, Repr, Inhabited

/-- `UtxoInfo`: one displayed UTXO. -/
structure UtxoInfo where
  outpoint : String
  amount : Nat
  script_public_key : String
deriving DecidableEq, Repr, Inhabited

/-- `AddressBalance`: the balance record returned to the dashboard. -/
structure AddressBalance where
  address : String
  balance : Nat
  utxo_count_total : Option Nat
  utxos : List UtxoInfo
deriving DecidableEq, Repr, Inhabited

/-- `PeerInfo`: one connectivity entry. -/
structure PeerInfo where
  id : String
  address : String
  is_connected : Bool
  last_seen : String
deriving DecidableEq, Repr, Inhabited

/-- Running `u64` sum with release-mode wrapping: each `+=` reduces
modulo `2^64`. -/
def sumU64 (l : List Nat) : Nat :=
  l.foldl (fun acc v => (acc + v) % 2 ^ 64) 0

/-! ### Mempool snapshotter (`get_mempool`, main.rs:308-420) -/

/-- The identifier assigned to a mempool entry: verbose
`transaction_id` when non-zero, else the verbose `hash`, else the empty
string (`unwrap_or_default`). -/
def entryId (e : RpcMempoolEntry) : String :=
  match e.transaction.verbose_data with
  | some v => if v.transaction_id != 0 then toString v.transaction_id else toString v.hash
  | none => ""

/-- `entries_with_id` after `sort_by(|(a,_),(b,_)| a.cmp(b))`. -/
def sortedEntries (entries : List RpcMempoolEntry) : List (String × RpcMempoolEntry) :=
  (entries.map (fun e => (entryId e, e))).mergeSort (fun a b => decide (a.1 ≤ b.1))

/-- The identifier sequence the seed hasher is folded over: the ids of
the sorted entry list, in sorted order. -/
def sortedIds (entries : List RpcMempoolEntry) : List String :=
  (sortedEntries entries).map (fun p => p.1)

/-- The window start index: `seed % len`, or `0` for an empty list. -/
def windowStart (hashIds : List String → Nat) (entries : List RpcMempoolEntry) : Nat :=
  let len := (sortedEntries entries).length
  if len = 0 then 0 else hashIds (sortedIds entries) % len

/-- One displayed transaction built from a sorted `(id, entry)` pair. -/
def mkTxInfo (p : String × RpcMempoolEntry) : TransactionInfo :=
  { id := p.1
    input_count := p.2.transaction.inputs.length
    output_count := p.2.transaction.outputs.length
    amount := sumU64 (p.2.transaction.outputs.map (fun o => o.value)) }

/-- The snapshot built on a successful mempool fetch: total size is the
raw entry count; the displayed transactions are the wrap-around window
of `min 50 len` sorted entries starting at `windowStart`. -/
def mempoolSuccess (hashIds : List String → Nat) (entries : List RpcMempoolEntry) :
    MempoolInfo :=
  let sorted := sortedEntries entries
  let len := sorted.length
  let limit := min 50 len
  let start := windowStart hashIds entries
  { size := entries.length
    transactions := (List.range limit).map
      (fun i => mkTxInfo (sorted.getD ((start + i) % len) default)) }

/-- The retry loop `for attempt in 0..3`: first successful
`get_mempool_entries` outcome, trying attempts `attempt`,
`attempt + 1`, … while fuel lasts. -/
def retryMempool (client : Client) (attempt : Nat) : Nat → Option (List RpcMempoolEntry)
  | 0 => none
  | fuel + 1 =>
    match client.get_mempool_entries attempt with
    | some entries => some entries
    | none => retryMempool client (attempt + 1) fuel

/-- The last-resort fallback: size from `get_info` if it works
(`unwrap_or(0)`), empty transaction list. -/
def fallbackSizeOnly (client : Client) : MempoolInfo :=
  { size := (client.get_info_result.map (fun i => i.mempool_size)).getD 0
    transactions := [] }

/-- `get_mempool`: returns the handler result together with the
mempool cache after the call (`state.mempool_cache`, a timestamped last
successful snapshot). -/
def get_mempool (hashIds : List String → Nat) (client? : Option Client)
    (cache : Option (Nat × MempoolInfo)) (now : Nat) :
    Except StatusCode MempoolInfo × Option (Nat × MempoolInfo) :=
  match client? with
  | none => (Except.error StatusCode.serviceUnavailable, cache)
  | some client =>
    match retryMempool client 0 3 with
    | some entries =>
      let info := mempoolSuccess hashIds entries
      (Except.ok info, some (now, info))
    | none =>
      match cache with
      | some (ts, cached) =>
        if now - ts ≤ 15 then (Except.ok cached, cache)
        else (Except.ok (fallbackSizeOnly client), cache)
      | none => (Except.ok (fallbackSizeOnly client), cache)

/-! ### Tip-chain walker (`get_blocks`, main.rs:216-306) -/

/-- First-seen-order deduplication by hash (the `HashSet::insert`
filter), with the already-seen set made explicit. -/
def dedupFirstGo (seen : List Hash) : List Hash → List Hash
  | [] => []
  | h :: t => if h ∈ seen then dedupFirstGo seen t else h :: dedupFirstGo (h :: seen) t

/-- Deduplicate a hash list keeping the first occurrence of each hash. -/
def dedupFirst (l : List Hash) : List Hash :=
  dedupFirstGo [] l

/-- The deduplicated level-0 parent hashes of a block
(`parents_by_level.get(0)` flattened through the seen-set filter). -/
def parentHashes (block : RpcBlock) : List Hash :=
  dedupFirst (block.header.parents_by_level.headD [])

/-- The hash the walk advances to: the verbose `selected_parent_hash`
if present and non-zero, else the first deduplicated parent, else
`none` (a block with no parents — the walk stops). -/
def nextHashOf (block : RpcBlock) : Option Hash :=
  ((block.verbose_data.map (fun v => v.selected_parent_hash)).filter
      (fun h => h != 0)) <|>
    (parentHashes block).head?

/-- The displayed record of one walked block. -/
def mkBlockInfo (block : RpcBlock) : BlockInfo :=
  let parent_hashes := parentHashes block
  { hash := toString block.header.hash
    level := block.header.daa_score
    parents :=
      if parent_hashes.isEmpty then "None"
      else String.intercalate ", " (parent_hashes.map toString)
    tx_count :=
      match block.verbose_data with
      | some v => v.transaction_ids.length
      | none => block.transactions.length
    timestamp := block.header.timestamp
    difficulty :=
      match block.verbose_data with
      | some v => v.difficulty
      | none => (block.header.bits : Int) }

/-- The `for _ in 0..20` walk: fetch the block at the current hash
(aborting the whole call on a fetch failure), record it, advance to
`nextHashOf` or stop when there is none. -/
def walkBlocks (client : Client) : Nat → Hash → Except StatusCode (List BlockInfo)
  | 0, _ => Except.ok []
  | fuel + 1, h =>
    match client.get_block h with
    | none => Except.error StatusCode.internalServerError
    | some block =>
      let info := mkBlockInfo block
      match nextHashOf block with
      | none => Except.ok [info]
      | some h2 =>
        match walkBlocks client fuel h2 with
        | Except.error e => Except.error e
        | Except.ok rest => Except.ok (info :: rest)

/-- `get_blocks`: DAG info is the single source of truth for the sink
and the total count; the walk starts at the sink with a cap of 20. -/
def get_blocks (client? : Option Client) : Except StatusCode BlocksResponse :=
  match client? with
  | none => Except.error StatusCode.serviceUnavailable
  | some client =>
    match client.get_block_dag_info with
    | none => Except.error StatusCode.internalServerError
    | some dag =>
      match walkBlocks client 20 dag.sink with
      | Except.error e => Except.error e
      | Except.ok blocks => Except.ok { total_count := dag.block_count, blocks := blocks }

/-- `isChainFrom client h rest` says the selected-parent chain starting
at `h` is exactly `h :: rest`: every block along it fetches
successfully, each advances to the next hash of `rest`, and the last
one has no next hash (no parents — e.g. genesis). -/
def isChainFrom (client : Client) (h : Hash) : List Hash → Prop
  | [] => ∃ b, client.get_block h = some b ∧ nextHashOf b = none
  | h2 :: t => ∃ b, client.get_block h = some b ∧ nextHashOf b = some h2 ∧
      isChainFrom client h2 t

/-- `reachesIn client n s h`: starting from `s`, `n` successful
fetch-and-advance steps land on `h`. -/
def reachesIn (client : Client) : Nat → Hash → Hash → Prop
  | 0, s, h => s = h
  | n + 1, s, h => ∃ b h2, client.get_block s = some b ∧ nextHashOf b = some h2 ∧
      reachesIn client n h2 h

/-! ### Balance reconciler (`get_address_balance`, main.rs:422-559) -/

/-- The node calls `get_address_balance` can issue, in order. -/
inductive NodeCall where
  | getInfo
  | getBalance
  | getUtxos
deriving DecidableEq, Repr

/-- The per-address balance cache
(`HashMap<String, (u64, Option<usize>, Vec<UtxoInfo>)>`), as an
association list; `insert` replaces any previous entry for the key. -/
abbrev BalanceCache := List (String × (Nat × Option Nat × List UtxoInfo))

/-- `HashMap::insert`: replace the entry for `key` or add one. -/
def cacheInsert (cache : BalanceCache) (key : String)
    (v : Nat × Option Nat × List UtxoInfo) : BalanceCache :=
  match cache with
  | [] => [(key, v)]
  | (k, w) :: rest =>
    if k = key then (key, v) :: rest else (k, w) :: cacheInsert rest key v

/-- The displayed UTXO list: the first 100 enumerated UTXOs
(`if i < 100` in the summing loop), rendered. -/
def displayUtxosOf (utxos : List RpcUtxo) : List UtxoInfo :=
  (utxos.take 100).map (fun u =>
    { outpoint := toString u.outpoint_transaction_id ++ ":" ++ toString u.outpoint_index
      amount := u.amount
      script_public_key := "script_" ++ toString u.outpoint_index })

/-- The wrapped `u64` sum of the enumerated UTXO amounts. -/
def utxoSum (utxos : List RpcUtxo) : Nat :=
  sumU64 (utxos.map (fun u => u.amount))

/-- `get_address_balance`: returns the handler result, the balance
cache after the call, and the trace of node calls issued.
`parseAddress` is the external address codec (`Address::try_from`);
`none` is a parse failure. Errors carry their `StatusCode` and the
`ErrorResponse` message. -/
def get_address_balance (parseAddress : String → Option ParsedAddress)
    (client? : Option Client) (cache : BalanceCache) (address : String) :
    Except (StatusCode × String) AddressBalance × BalanceCache × List NodeCall :=
  match client? with
  | none =>
    (Except.error (StatusCode.serviceUnavailable, "Not connected to kaspad"), cache, [])
  | some client =>
    match parseAddress address with
    | none => (Except.error (StatusCode.badRequest, "Invalid address"), cache, [])
    | some parsed_address =>
      match client.get_info_result with
      | none =>
        (Except.error (StatusCode.internalServerError, "Failed to query kaspad info"),
          cache, [NodeCall.getInfo])
      | some info =>
        if !info.is_utxo_indexed then
          (Except.error (StatusCode.serviceUnavailable,
              "Address balance requires kaspad to run with --utxoindex"),
            cache, [NodeCall.getInfo])
        else
          match client.get_balance_by_address parsed_address with
          | none =>
            (Except.error (StatusCode.internalServerError,
                "Failed to fetch indexed balance (is --utxoindex enabled?)"),
              cache, [NodeCall.getInfo, NodeCall.getBalance])
          | some indexed_balance =>
            let outcome := client.get_utxos_by_addresses parsed_address
            let computed_balance : Option Nat :=
              match outcome with
              | UtxoOutcome.ok utxos => some (utxoSum utxos)
              | UtxoOutcome.err => none
              | UtxoOutcome.timeout => none
            let utxo_count_total : Option Nat :=
              match outcome with
              | UtxoOutcome.ok utxos => some utxos.length
              | _ => none
            let display_utxos : List UtxoInfo :=
              match outcome with
              | UtxoOutcome.ok utxos => displayUtxosOf utxos
              | _ => []
            let total_balance := computed_balance.getD indexed_balance
            let cache2 := cacheInsert cache address
              (total_balance, utxo_count_total, display_utxos)
            (Except.ok
                { address := address
                  balance := total_balance
                  utxo_count_total := utxo_count_total
                  utxos := display_utxos },
              cache2, [NodeCall.getInfo, NodeCall.getBalance, NodeCall.getUtxos])

/-! ### Connectivity tracker (`get_peer_info`, main.rs:561-629) -/

/-- The self-entry built on a successful liveness call. -/
def selfPeerConnected (server_url : String) : PeerInfo :=
  { id := "local", address := server_url, is_connected := true, last_seen := "now" }

/-- The hardcoded second entry of the reachable-path peer list. -/
def hardcodedPeer : PeerInfo :=
  { id := "peer-82.166.83.140", address := "82.166.83.140:16311",
    is_connected := true, last_seen := "recent" }

/-- The synthesized disconnected self-entry; `last_seen` is "error"
after a failed liveness call and "disconnected" without a client. -/
def selfPeerDisconnected (server_url last_seen : String) : PeerInfo :=
  { id := "local-node", address := server_url, is_connected := false,
    last_seen := last_seen }

/-- `get_peer_info`: returns the peer list together with the peer
cache after the call (`state.peer_info`). The handler has no error
type: every path returns a list. -/
def get_peer_info (client? : Option Client) (server_url : String)
    (peer_cache : List PeerInfo) : List PeerInfo × List PeerInfo :=
  match client? with
  | some client =>
    match client.get_info_result with
    | some _ =>
      let peer_list := [selfPeerConnected server_url, hardcodedPeer]
      (peer_list, peer_list)
    | none =>
      if peer_cache.isEmpty then ([selfPeerDisconnected server_url "error"], peer_cache)
      else (peer_cache, peer_cache)
  | none =>
    if peer_cache.isEmpty then ([selfPeerDisconnected server_url "disconnected"], peer_cache)
    else (peer_cache, peer_cache)

/-! ### Concrete clients used to exercise the theorems -/

/-- A client on which every node call fails. -/
def dummyClient : Client :=
  { get_info_result := none
    get_block_dag_info := none
    get_block := fun _ => none
    get_mempool_entries := fun _ => none
    get_balance_by_address := fun _ => none
    get_utxos_by_addresses := fun _ => UtxoOutcome.err }

/-- A client whose mempool-entries call fails on every attempt but
whose `get_info` succeeds and reports a mempool of size 7. -/
def c4Client : Client :=
  { get_info_result := some { is_utxo_indexed := true, mempool_size := 7 }
    get_block_dag_info := none
    get_block := fun _ => none
    get_mempool_entries := fun _ => none
    get_balance_by_address := fun _ => none
    get_utxos_by_addresses := fun _ => UtxoOutcome.err }

/-- A client whose mempool-entries call succeeds on the first attempt
with two entries. -/
def c3Client : Client :=
  { get_info_result := none
    get_block_dag_info := none
    get_block := fun _ => none
    get_mempool_entries := fun _ =>
      some [⟨⟨[()], [⟨10⟩, ⟨20⟩], some ⟨5, 0⟩⟩⟩, ⟨⟨[], [⟨7⟩], some ⟨0, 3⟩⟩⟩]
    get_balance_by_address := fun _ => none
    get_utxos_by_addresses := fun _ => UtxoOutcome.err }

/-- Blocks forming a two-block linear chain `1 → 2`, block `2` having
no parents. The raw parent list of block `1` lists hash `2` twice. -/
def blk2 : RpcBlock := ⟨⟨2, 9, [], 0, 0⟩, [], none⟩

/-- The tip block of the concrete chain; its parents deduplicate to
`[2]`. -/
def blk1 : RpcBlock := ⟨⟨1, 10, [[2, 2]], 0, 0⟩, [], none⟩

/-- A client exposing the linear two-block DAG `sink = 1 → 2`. -/
def chainClient : Client :=
  { get_info_result := none
    get_block_dag_info := some ⟨1, 5⟩
    get_block := fun h => if h = 1 then some blk1 else if h = 2 then some blk2 else none
    get_mempool_entries := fun _ => none
    get_balance_by_address := fun _ => none
    get_utxos_by_addresses := fun _ => UtxoOutcome.err }

/-- A client whose UTXO enumeration yields two UTXOs summing to 1000
while the indexed balance reports 999. -/
def c2Client : Client :=
  { get_info_result := some ⟨true, 0⟩
    get_block_dag_info := none
    get_block := fun _ => none
    get_mempool_entries := fun _ => none
    get_balance_by_address := fun _ => some 999
    get_utxos_by_addresses := fun _ => UtxoOutcome.ok [⟨11, 0, 400⟩, ⟨12, 1, 600⟩] }

/-- A client whose liveness call succeeds. -/
def liveClient : Client :=
  { get_info_result := some ⟨true, 0⟩
    get_block_dag_info := none
    get_block := fun _ => none
    get_mempool_entries := fun _ => none
    get_balance_by_address := fun _ => none
    get_utxos_by_addresses := fun _ => UtxoOutcome.err }

/-! ### Lemmas about the mempool snapshotter -/

/-- Sorting the tagged entry list preserves its length. -/
theorem sortedEntries_length (entries : List RpcMempoolEntry) :
    (sortedEntries entries).length = entries.length := by
  simp [sortedEntries, List.length_mergeSort]

/-- The window start depends only on the sorted identifier sequence. -/
theorem windowStart_eq (hashIds : List String → Nat) (entries : List RpcMempoolEntry) :
    windowStart hashIds entries =
      if (sortedIds entries).length = 0 then 0
      else hashIds (sortedIds entries) % (sortedIds entries).length := by
  simp [windowStart, sortedIds]

/-! ### Claim C1 (corrected) -/

/-- C1, counterexample to the claim as stated: the mempool handler does
not return a snapshot "for every state of the node connection" — with
no active connection (`client = None`, `ok_or(SERVICE_UNAVAILABLE)` at
main.rs:310) it fails with `ServiceUnavailable`. -/
theorem get_mempool_without_connection_errors :
    (get_mempool (fun _ => 0) none none 0).1 =
      Except.error StatusCode.serviceUnavailable := rfl

/-- C1, amended: given an active node connection, `get_mempool` never
fails outward — for every outcome of the (retried) mempool-entries
call, every cache state and every node-info outcome it returns a
snapshot; without a connection it fails with `ServiceUnavailable`. -/
theorem get_mempool_never_fails_when_connected (hashIds : List String → Nat)
    (client : Client) (cache : Option (Nat × MempoolInfo)) (now : Nat) :
    (∃ m, (get_mempool hashIds (some client) cache now).1 = Except.ok m) ∧
    (get_mempool hashIds none cache now).1 =
      Except.error StatusCode.serviceUnavailable := by
  constructor
  · cases hr : retryMempool client 0 3 with
    | some entries =>
      exact ⟨mempoolSuccess hashIds entries, by simp [get_mempool, hr]⟩
    | none =>
      rcases cache with _ | ⟨ts, cached⟩
      · exact ⟨fallbackSizeOnly client, by simp [get_mempool, hr]⟩
      · by_cases hle : now - ts ≤ 15
        · exact ⟨cached, by simp [get_mempool, hr, hle]⟩
        · exact ⟨fallbackSizeOnly client, by simp [get_mempool, hr, hle]⟩
  · rfl

/-! ### Claim C3 (confirmed) -/

/-- C3: on a successful mempool fetch the snapshot is `mempoolSuccess`;
its sampled window has length exactly `min 50 totalEntries`
(`maxDisplay = 50` in the source), its `i`-th element is the sorted
entry at index `(start + i) % totalEntries` — the contiguous
wrap-around window starting at `windowStart`, which is
`seed % totalEntries` (`0` if empty) — and the start index is a
function only of the sorted identifier sequence, so two snapshots with
identical sorted entry-id sequences have identical window starts. -/
theorem mempool_window_spec (hashIds : List String → Nat) (client : Client)
    (cache : Option (Nat × MempoolInfo)) (now : Nat) (entries : List RpcMempoolEntry)
    (hfetch : retryMempool client 0 3 = some entries) :
    (get_mempool hashIds (some client) cache now).1 =
      Except.ok (mempoolSuccess hashIds entries) ∧
    (mempoolSuccess hashIds entries).transactions.length = min 50 entries.length ∧
    (mempoolSuccess hashIds entries).size = entries.length ∧
    (∀ i, i < min 50 entries.length →
      (mempoolSuccess hashIds entries).transactions.getD i default =
        mkTxInfo ((sortedEntries entries).getD
          ((windowStart hashIds entries + i) % (sortedEntries entries).length) default)) ∧
    (∀ entries2, sortedIds entries2 = sortedIds entries →
      windowStart hashIds entries2 = windowStart hashIds entries) := by
  refine ⟨by simp [get_mempool, hfetch], ?_, rfl, ?_, ?_⟩
  · simp [mempoolSuccess, sortedEntries_length]
  · intro i hi
    rw [← sortedEntries_length entries] at hi
    simp [mempoolSuccess, List.getD_eq_getElem?_getD, List.getElem?_map,
      List.getElem?_range, hi]
  · intro entries2 h
    rw [windowStart_eq, windowStart_eq, h]

/-- Witness for C3 at a concrete two-entry fetch. -/
theorem mempool_window_spec_witness :
    (get_mempool (fun l => l.length) (some c3Client) none 0).1 =
      Except.ok (mempoolSuccess (fun l => l.length)
        [⟨⟨[()], [⟨10⟩, ⟨20⟩], some ⟨5, 0⟩⟩⟩, ⟨⟨[], [⟨7⟩], some ⟨0, 3⟩⟩⟩]) :=
  (mempool_window_spec (fun l => l.length) c3Client none 0
    [⟨⟨[()], [⟨10⟩, ⟨20⟩], some ⟨5, 0⟩⟩⟩, ⟨⟨[], [⟨7⟩], some ⟨0, 3⟩⟩⟩] rfl).1

/-! ### Claim C4 (corrected) -/

/-- C4, counterexample to the claim as stated: with every retry attempt
failing and no prior cache, the returned snapshot need not have
`totalSize == 0` — the last-resort fallback still reports the size from
a successful `get_info` (main.rs:348-352), here 7. -/
theorem get_mempool_fallback_size_nonzero :
    (get_mempool (fun _ => 0) (some c4Client) none 0).1 =
      Except.ok { size := 7, transactions := [] } ∧ (7 : Nat) ≠ 0 :=
  ⟨rfl, by decide⟩

/-- C4, amended: if every retry attempt fails and there is no prior
snapshot (or the cached one exceeds the 15 s staleness bound), the
returned snapshot has an empty sampled window and its `totalSize` is
the node-info mempool size when that lightweight call succeeds, else
`0`. -/
theorem get_mempool_exhausted_fallback (hashIds : List String → Nat) (client : Client)
    (cache : Option (Nat × MempoolInfo)) (now : Nat)
    (hfail : retryMempool client 0 3 = none)
    (hstale : ∀ ts cached, cache = some (ts, cached) → ¬(now - ts ≤ 15)) :
    (get_mempool hashIds (some client) cache now).1 =
      Except.ok { size := (client.get_info_result.map (fun i => i.mempool_size)).getD 0,
                  transactions := [] } := by
  rcases cache with _ | ⟨ts, cached⟩
  · simp [get_mempool, hfail, fallbackSizeOnly]
  · have hgt := hstale ts cached rfl
    simp [get_mempool, hfail, hgt, fallbackSizeOnly]

/-- Witness for the amended C4: all attempts fail, no cache, `get_info`
reports 7. -/
theorem get_mempool_exhausted_fallback_witness :
    (get_mempool (fun _ => 0) (some c4Client) none 0).1 =
      Except.ok { size := (c4Client.get_info_result.map (fun i => i.mempool_size)).getD 0,
                  transactions := [] } :=
  get_mempool_exhausted_fallback (fun _ => 0) c4Client none 0 rfl
    (fun _ _ h => nomatch h)

/-! ### Lemmas about the tip-chain walker -/

/-- A successful walk with `fuel` steps collects at most `fuel` blocks. -/
theorem walkBlocks_length_le (client : Client) :
    ∀ fuel h l, walkBlocks client fuel h = Except.ok l → l.length ≤ fuel := by
  intro fuel
  induction fuel with
  | zero =>
    intro h l hw
    simp only [walkBlocks] at hw
    cases hw
    simp
  | succ f ih =>
    intro h l hw
    simp only [walkBlocks] at hw
    cases hb : client.get_block h with
    | none => simp only [hb] at hw; cases hw
    | some block =>
      simp only [hb] at hw
      cases hn : nextHashOf block with
      | none =>
        simp only [hn] at hw
        cases hw
        simp
      | some h2 =>
        simp only [hn] at hw
        cases hr : walkBlocks client f h2 with
        | error e => simp only [hr] at hw; cases hw
        | ok rest =>
          simp only [hr] at hw
          cases hw
          simpa using Nat.succ_le_succ (ih h2 rest hr)

/-- Walking a linear selected-parent chain of length `rest.length + 1`
within the fuel budget succeeds and collects exactly one block per
chain element. -/
theorem walkBlocks_chain (client : Client) :
    ∀ rest h fuel, isChainFrom client h rest → rest.length + 1 ≤ fuel →
      ∃ l, walkBlocks client fuel h = Except.ok l ∧ l.length = rest.length + 1 := by
  intro rest
  induction rest with
  | nil =>
    intro h fuel hchain hle
    obtain ⟨b, hb, hn⟩ := hchain
    cases fuel with
    | zero => omega
    | succ f =>
      exact ⟨[mkBlockInfo b], by simp [walkBlocks, hb, hn], by simp⟩
  | cons h2 t ih =>
    intro h fuel hchain hle
    obtain ⟨b, hb, hn, hrest⟩ := hchain
    cases fuel with
    | zero => simp at hle
    | succ f =>
      have hle' : t.length + 1 ≤ f := by simp at hle; omega
      obtain ⟨l, hw, hlen⟩ := ih h2 f hrest hle'
      exact ⟨mkBlockInfo b :: l, by simp [walkBlocks, hb, hn, hw], by simp [hlen]⟩

/-- If `n < fuel` successful steps from `s` reach a hash whose fetch
fails, the walk aborts with an error (collecting nothing). -/
theorem walkBlocks_fail (client : Client) :
    ∀ n s h fuel, reachesIn client n s h → n < fuel → client.get_block h = none →
      walkBlocks client fuel s = Except.error StatusCode.internalServerError := by
  intro n
  induction n with
  | zero =>
    intro s h fuel hr hlt hb
    have hsh : s = h := hr
    subst hsh
    cases fuel with
    | zero => omega
    | succ f => simp [walkBlocks, hb]
  | succ n ih =>
    intro s h fuel hr hlt hb
    obtain ⟨b, h2, hgb, hn, hr'⟩ := hr
    cases fuel with
    | zero => omega
    | succ f =>
      have hrec := ih h2 h f hr' (by omega) hb
      simp [walkBlocks, hgb, hn, hrec]

/-! ### Claim C5 (confirmed) -/

/-- C5: the tip-chain walk never returns more than 20 block entries,
and for every client whose selected-parent chain from the DAG sink is
linear with length `rest.length + 1 < 20` and ends at a block with no
parents, it returns exactly that many entries and no error. -/
theorem tip_chain_walk_bounds :
    (∀ (client? : Option Client) (resp : BlocksResponse),
      get_blocks client? = Except.ok resp → resp.blocks.length ≤ 20) ∧
    (∀ (client : Client) (dag : DagInfo) (rest : List Hash),
      client.get_block_dag_info = some dag →
      isChainFrom client dag.sink rest → rest.length + 1 < 20 →
      ∃ resp, get_blocks (some client) = Except.ok resp ∧
        resp.blocks.length = rest.length + 1) := by
  constructor
  · intro client? resp hok
    rcases client? with _ | client
    · cases hok
    · simp only [get_blocks] at hok
      cases hd : client.get_block_dag_info with
      | none => simp only [hd] at hok; cases hok
      | some dag =>
        simp only [hd] at hok
        cases hw : walkBlocks client 20 dag.sink with
        | error e => simp only [hw] at hok; cases hok
        | ok blocks =>
          simp only [hw] at hok
          cases hok
          exact walkBlocks_length_le client 20 dag.sink blocks hw
  · intro client dag rest hd hchain hlt
    obtain ⟨l, hw, hlen⟩ := walkBlocks_chain client rest dag.sink 20 hchain (le_of_lt hlt)
    exact ⟨{ total_count := dag.block_count, blocks := l },
      by simp [get_blocks, hd, hw], by simpa using hlen⟩

/-- Witness for C5 on the concrete linear chain `1 → 2` (length 2). -/
theorem tip_chain_walk_bounds_witness :
    ∃ resp, get_blocks (some chainClient) = Except.ok resp ∧ resp.blocks.length = 2 :=
  tip_chain_walk_bounds.2 chainClient ⟨1, 5⟩ [2] rfl
    ⟨blk1, rfl, rfl, blk2, rfl, rfl⟩ (by decide)

/-! ### Claim C6 (confirmed) -/

/-- C6: the walk fails the whole call with an upstream error
(`INTERNAL_SERVER_ERROR`) both when the initial DAG-info call fails and
when any block fetch along the walk fails; the error result carries no
block list, so no partial prefix of already-collected blocks is
returned. -/
theorem tip_chain_walk_aborts :
    (∀ client : Client, client.get_block_dag_info = none →
      get_blocks (some client) = Except.error StatusCode.internalServerError) ∧
    (∀ (client : Client) (dag : DagInfo) (n : Nat) (h : Hash),
      client.get_block_dag_info = some dag →
      reachesIn client n dag.sink h → n < 20 → client.get_block h = none →
      get_blocks (some client) = Except.error StatusCode.internalServerError) := by
  constructor
  · intro client hd
    simp [get_blocks, hd]
  · intro client dag n h hd hr hlt hb
    have hw := walkBlocks_fail client n dag.sink h 20 hr hlt hb
    simp [get_blocks, hd, hw]

/-- Witness for C6: a client whose DAG-info call fails. -/
theorem tip_chain_walk_aborts_witness :
    get_blocks (some dummyClient) = Except.error StatusCode.internalServerError :=
  tip_chain_walk_aborts.1 dummyClient rfl

/-! ### Claim C2 (confirmed) -/

/-- C2: when the UTXO enumeration completes in time with a result, the
returned balance is the computed sum — unconditionally, in particular
also when it disagrees with the indexed balance (the discrepancy is
only logged; the call still succeeds); when the enumeration fails or
times out, the record carries no computed data (`utxo_count_total` is
absent, the display list is empty) and the returned balance is the
indexed one. -/
theorem balance_computed_wins (parseAddress : String → Option ParsedAddress)
    (client : Client) (cache : BalanceCache) (address : String)
    (parsed : ParsedAddress) (info : RpcInfo) (indexed : Nat)
    (hparse : parseAddress address = some parsed)
    (hinfo : client.get_info_result = some info)
    (hidx : info.is_utxo_indexed = true)
    (hbal : client.get_balance_by_address parsed = some indexed) :
    (∀ utxos, client.get_utxos_by_addresses parsed = UtxoOutcome.ok utxos →
      ∃ r, (get_address_balance parseAddress (some client) cache address).1 = Except.ok r ∧
        r.balance = utxoSum utxos ∧ r.utxo_count_total = some utxos.length) ∧
    ((client.get_utxos_by_addresses parsed = UtxoOutcome.err ∨
        client.get_utxos_by_addresses parsed = UtxoOutcome.timeout) →
      ∃ r, (get_address_balance parseAddress (some client) cache address).1 = Except.ok r ∧
        r.balance = indexed ∧ r.utxo_count_total = none ∧ r.utxos = []) := by
  constructor
  · intro utxos hu
    refine ⟨{ address := address, balance := utxoSum utxos,
              utxo_count_total := some utxos.length,
              utxos := displayUtxosOf utxos }, ?_, rfl, rfl⟩
    simp [get_address_balance, hparse, hinfo, hidx, hbal, hu]
  · intro hu
    refine ⟨{ address := address, balance := indexed,
              utxo_count_total := none, utxos := [] }, ?_, rfl, rfl, rfl⟩
    rcases hu with hu | hu <;>
      simp [get_address_balance, hparse, hinfo, hidx, hbal, hu]

/-- Witness for C2: the enumerated UTXOs sum to 1000 while the indexed
balance says 999; the computed sum wins. -/
theorem balance_computed_wins_witness :
    ∃ r, (get_address_balance (fun s => some s) (some c2Client) [] "kaspa:x").1 =
        Except.ok r ∧
      r.balance = utxoSum [⟨11, 0, 400⟩, ⟨12, 1, 600⟩] ∧ r.utxo_count_total = some 2 :=
  (balance_computed_wins (fun s => some s) c2Client [] "kaspa:x" "kaspa:x"
    ⟨true, 0⟩ 999 rfl rfl rfl rfl).1 [⟨11, 0, 400⟩, ⟨12, 1, 600⟩] rfl

/-! ### Claim C7 (confirmed) -/

/-- C7: an address string that fails to parse makes the balance
operation fail with the invalid-input kind (`BAD_REQUEST`, "Invalid
address"), leaves the cache untouched, and issues no node call at all
(the call trace is empty — no info, indexed-balance or UTXO call). -/
theorem invalid_address_before_node_calls (parseAddress : String → Option ParsedAddress)
    (client : Client) (cache : BalanceCache) (address : String)
    (hparse : parseAddress address = none) :
    get_address_balance parseAddress (some client) cache address =
      (Except.error (StatusCode.badRequest, "Invalid address"), cache, []) := by
  simp [get_address_balance, hparse]

/-- Witness for C7 at the spec's example input. -/
theorem invalid_address_before_node_calls_witness :
    get_address_balance (fun _ => none) (some dummyClient) [] "not-a-real-address" =
      (Except.error (StatusCode.badRequest, "Invalid address"), [], []) :=
  invalid_address_before_node_calls (fun _ => none) dummyClient [] "not-a-real-address" rfl

/-! ### Claim C9 (confirmed) -/

/-- C9: the per-address balance cache is write-only — the handler
result (and even the node-call trace) of `get_address_balance` is
identical across any two runs that differ only in the prior contents of
the balance cache. -/
theorem balance_cache_write_only (parseAddress : String → Option ParsedAddress)
    (client? : Option Client) (cache1 cache2 : BalanceCache) (address : String) :
    (get_address_balance parseAddress client? cache1 address).1 =
      (get_address_balance parseAddress client? cache2 address).1 ∧
    (get_address_balance parseAddress client? cache1 address).2.2 =
      (get_address_balance parseAddress client? cache2 address).2.2 := by
  rcases client? with _ | client
  · exact ⟨rfl, rfl⟩
  · cases hp : parseAddress address with
    | none => simp [get_address_balance, hp]
    | some parsed =>
      cases hi : client.get_info_result with
      | none => simp [get_address_balance, hp, hi]
      | some info =>
        cases hidx : info.is_utxo_indexed with
        | false => simp [get_address_balance, hp, hi, hidx]
        | true =>
          cases hb : client.get_balance_by_address parsed with
          | none => simp [get_address_balance, hp, hi, hidx, hb]
          | some indexed =>
            cases hu : client.get_utxos_by_addresses parsed <;>
              simp [get_address_balance, hp, hi, hidx, hb, hu]

/-! ### Claims C8 and C10 (connectivity tracker) -/

/-- The node is unreachable for the tracker: either there is no client
connection at all, or the liveness (`get_info`) call errors. -/
def unreachable (client? : Option Client) : Prop :=
  client? = none ∨ ∃ c, client? = some c ∧ c.get_info_result = none

/-- On an unreachable node with a non-empty cache, the tracker returns
the cached snapshot and leaves the cache unchanged. -/
theorem get_peer_info_unreachable (client? : Option Client) (server_url : String)
    (cache : List PeerInfo) (hu : unreachable client?) (hne : cache ≠ []) :
    get_peer_info client? server_url cache = (cache, cache) := by
  rcases hu with h | ⟨c, h, hinfo⟩
  · subst h
    simp [get_peer_info, List.isEmpty_iff, hne]
  · subst h
    simp [get_peer_info, hinfo, List.isEmpty_iff, hne]

/-- On an unreachable node with an empty cache, the tracker synthesizes
a single disconnected self-entry and still does not touch the cache. -/
theorem get_peer_info_unreachable_empty (client? : Option Client) (server_url : String)
    (hu : unreachable client?) :
    ∃ self, get_peer_info client? server_url [] = ([self], []) ∧
      self.is_connected = false ∧ self.address = server_url := by
  rcases hu with h | ⟨c, h, hinfo⟩
  · subst h
    exact ⟨selfPeerDisconnected server_url "disconnected", rfl, rfl, rfl⟩
  · subst h
    exact ⟨selfPeerDisconnected server_url "error",
      by simp [get_peer_info, hinfo], rfl, rfl⟩

/-- C8: the connectivity tracker never fails outward (its return type
has no error case); a call with the node reachable returns a snapshot
containing the self-entry marked connected and stores that snapshot in
the cache; a subsequent call with the node unreachable returns that
cached snapshot unchanged; and only with an empty cache does an
unreachable call synthesize a single self-entry marked disconnected. -/
theorem connectivity_cache_fallback (client : Client) (server_url : String)
    (cache : List PeerInfo) (info : RpcInfo)
    (hlive : client.get_info_result = some info) :
    (selfPeerConnected server_url ∈ (get_peer_info (some client) server_url cache).1 ∧
      (selfPeerConnected server_url).is_connected = true ∧
      (get_peer_info (some client) server_url cache).2 =
        (get_peer_info (some client) server_url cache).1) ∧
    (∀ client2? : Option Client, unreachable client2? →
      get_peer_info client2? server_url (get_peer_info (some client) server_url cache).2 =
        ((get_peer_info (some client) server_url cache).2,
          (get_peer_info (some client) server_url cache).2)) ∧
    (∀ client2? : Option Client, unreachable client2? →
      ∃ self, get_peer_info client2? server_url [] = ([self], []) ∧
        self.is_connected = false ∧ self.address = server_url) := by
  have hcall : get_peer_info (some client) server_url cache =
      ([selfPeerConnected server_url, hardcodedPeer],
        [selfPeerConnected server_url, hardcodedPeer]) := by
    simp [get_peer_info, hlive]
  refine ⟨⟨?_, rfl, ?_⟩, ?_, ?_⟩
  · rw [hcall]
    exact List.mem_cons_self _ _
  · rw [hcall]
  · intro client2? hu
    rw [hcall]
    exact get_peer_info_unreachable client2? server_url _ hu (by simp)
  · intro client2? hu
    exact get_peer_info_unreachable_empty client2? server_url hu

/-- Witness for C8: a reachable call fills the cache; a later call with
no client connection returns that cache unchanged. -/
theorem connectivity_cache_fallback_witness :
    get_peer_info none "u" (get_peer_info (some liveClient) "u" []).2 =
      ((get_peer_info (some liveClient) "u" []).2,
        (get_peer_info (some liveClient) "u" []).2) :=
  (connectivity_cache_fallback liveClient "u" [] ⟨true, 0⟩ rfl).2.1 none (Or.inl rfl)

/-- C10: whenever the liveness call succeeds, the returned peer view is
exactly the two-element list self-entry plus the hardcoded peer
`82.166.83.140:16311`, which is always marked connected — no input of
the model carries that peer's actual reachability, so the flag cannot
depend on it. -/
theorem peer_view_hardcoded_peer (client : Client) (server_url : String)
    (cache : List PeerInfo) (info : RpcInfo)
    (hlive : client.get_info_result = some info) :
    (get_peer_info (some client) server_url cache).1 =
      [selfPeerConnected server_url, hardcodedPeer] ∧
    hardcodedPeer.address = "82.166.83.140:16311" ∧
    hardcodedPeer.is_connected = true ∧
    (selfPeerConnected server_url).is_connected = true := by
  refine ⟨?_, rfl, rfl, rfl⟩
  simp [get_peer_info, hlive]

/-- Witness for C10 at a concrete reachable client. -/
theorem peer_view_hardcoded_peer_witness :
    (get_peer_info (some liveClient) "u" []).1 = [selfPeerConnected "u", hardcodedPeer] :=
  (peer_view_hardcoded_peer liveClient "u" [] ⟨true, 0⟩ rfl).1
